import Mathlib

/-!
# The libusb-1.0 backend of okcore (`okcore/okcore_libusb-1.0.c`)

A shallow embedding of the USB transport shim.  The C translation unit keeps
three file-level statics (`okl_errno`, `libusb_inited`, `usb_ctx`) and writes
the library-wide `ok_errno`; here they are the fields of `OkState`, threaded
explicitly through every operation.  The USB library is outside the program:
each libusb call is represented by the integer it returns (supplied by the
caller of the model, so theorems quantify over every possible reply) and by
an entry appended to `OkState.calls`, the chronological log of the libusb
calls the code issued.

Conventions
* a `void *` handle is `Option Handle`, `NULL` being `none`;
* C `int` values are `Int`; the only arithmetic on them is `found++`, which
  cannot overflow for a device list and product list that fit in memory;
* report payload bytes are not modelled, only the transfer arguments and the
  transfer's return value.
-/

namespace OkUsb

/-! ## Constants -/

/-- Modelled from the spec: the caller-facing error code space that
`okcore.h` declares (the header is not part of the sources at hand).  The
spec names four kinds: success, generic USB error, no key, no data. -/
inductive OkErrno
  | OK_SUCCESS
  | OK_EUSBERR
  | OK_ENOKEY
  | OK_ENODATA
  deriving DecidableEq

/-- Macro `#define HID_GET_REPORT 0x01`. -/
def HID_GET_REPORT : Nat := 0x01

/-- Macro `#define HID_SET_REPORT 0x09`. -/
def HID_SET_REPORT : Nat := 0x09

/-- Request type bits of `libusb.h` (`enum libusb_request_type`). -/
def LIBUSB_REQUEST_TYPE_CLASS : Nat := 0x20

/-- Recipient bits of `libusb.h` (`enum libusb_request_recipient`). -/
def LIBUSB_RECIPIENT_INTERFACE : Nat := 0x01

/-- Direction bit of `libusb.h` (`enum libusb_endpoint_direction`), host to device. -/
def LIBUSB_ENDPOINT_OUT : Nat := 0x00

/-- Direction bit of `libusb.h` (`enum libusb_endpoint_direction`), device to host. -/
def LIBUSB_ENDPOINT_IN : Nat := 0x80

/-! The values of `enum libusb_error` in `libusb.h` (libusb-1.0). -/

/-- Success (no error). -/
def LIBUSB_SUCCESS : Int := 0
/-- Input/output error. -/
def LIBUSB_ERROR_IO : Int := -1
/-- Invalid parameter. -/
def LIBUSB_ERROR_INVALID_PARAM : Int := -2
/-- Access denied. -/
def LIBUSB_ERROR_ACCESS : Int := -3
/-- No such device. -/
def LIBUSB_ERROR_NO_DEVICE : Int := -4
/-- Entity not found. -/
def LIBUSB_ERROR_NOT_FOUND : Int := -5
/-- Resource busy. -/
def LIBUSB_ERROR_BUSY : Int := -6
/-- Operation timed out. -/
def LIBUSB_ERROR_TIMEOUT : Int := -7
/-- Overflow. -/
def LIBUSB_ERROR_OVERFLOW : Int := -8
/-- Pipe error. -/
def LIBUSB_ERROR_PIPE : Int := -9
/-- System call interrupted. -/
def LIBUSB_ERROR_INTERRUPTED : Int := -10
/-- Insufficient memory. -/
def LIBUSB_ERROR_NO_MEM : Int := -11
/-- Operation not supported. -/
def LIBUSB_ERROR_NOT_SUPPORTED : Int := -12
/-- Other error. -/
def LIBUSB_ERROR_OTHER : Int := -99

/-! ## Data model -/

/-- An entry of the list `libusb_get_device_list` returns.  `address`
identifies the device (the pointer `list[i]`), `descRc` is what
`libusb_get_device_descriptor` returns for it during enumeration, and
`idVendor`/`idProduct` are the `uint16_t` fields of its descriptor. -/
structure UsbDevice where
  address : Nat
  descRc : Int
  idVendor : Nat
  idProduct : Nat
  deriving DecidableEq

/-- An open `libusb_device_handle`: the handle `libusb_open` stores for a device. -/
structure Handle where
  dev : UsbDevice
  deriving DecidableEq

/-- One call into libusb, with the arguments the code passes. -/
inductive UsbCall
  | libusb_init
  | libusb_exit
  | libusb_get_device_list
  | libusb_free_device_list
  | libusb_get_device_descriptor (dev : UsbDevice)
  | libusb_open (dev : UsbDevice)
  | libusb_kernel_driver_active (h : Handle) (iface : Nat)
  | libusb_detach_kernel_driver (h : Handle) (iface : Nat)
  | libusb_attach_kernel_driver (h : Handle) (iface : Nat)
  | libusb_get_configuration (h : Handle)
  | libusb_set_configuration (h : Handle) (cfg : Int)
  | libusb_claim_interface (h : Handle) (iface : Nat)
  | libusb_release_interface (h : Handle) (iface : Nat)
  | libusb_control_transfer (h : Handle)
      (bmRequestType bRequest wValue wIndex wLength timeout : Nat)
  | libusb_get_device (h : Handle)
  | libusb_close (h : Handle)
  deriving DecidableEq

/-- The process-wide state: the three statics of the translation unit, the
library-wide `ok_errno`, and the log of libusb calls issued so far. -/
structure OkState where
  okl_errno : Int
  libusb_inited : Int
  usb_ctx : Option Nat
  ok_errno : OkErrno
  calls : List UsbCall
  deriving DecidableEq

/-- The state at program start: statics are zero-initialised
(`static int okl_errno;`, `libusb_inited = 0`, `usb_ctx = NULL`), no error
has been reported and no libusb call has been made. -/
def OkState.initial : OkState :=
  { okl_errno := 0, libusb_inited := 0, usb_ctx := none,
    ok_errno := OkErrno.OK_SUCCESS, calls := [] }

/-- What libusb answers during one report transaction: the return values of
`libusb_claim_interface`, `libusb_control_transfer` and
`libusb_release_interface`. -/
structure XferReplies where
  claim : Int
  transfer : Int
  release : Int

/-- What libusb answers during the open sequence of `_okusb_open_device`:
the return values of `libusb_open`, `libusb_kernel_driver_active`,
`libusb_detach_kernel_driver`, `libusb_get_configuration` (with the
configuration it stores), and `libusb_set_configuration`. -/
structure OpenReplies where
  open_rc : Int
  kernel_driver_active : Int
  detach_kernel_driver : Int
  get_configuration : Int
  current_cfg : Int
  set_configuration : Int

/-! ## Report I/O -/

/-- Function `_okusb_write`: claim interface 0, SET_REPORT control transfer, release.
Returns the C return value and the new state. -/
def _okusb_write (s : OkState) (dev : Handle) (report_type report_number size : Nat)
    (io : XferReplies) : Int × OkState :=
  let s : OkState := { s with
      okl_errno := io.claim,
      calls := s.calls ++ [UsbCall.libusb_claim_interface dev 0] }
  let s :=
    if s.okl_errno = 0 then
      let s : OkState := { s with
        okl_errno := io.transfer,
        calls := s.calls ++ [UsbCall.libusb_control_transfer dev
          (LIBUSB_REQUEST_TYPE_CLASS ||| LIBUSB_RECIPIENT_INTERFACE ||| LIBUSB_ENDPOINT_OUT)
          HID_SET_REPORT ((report_type <<< 8 ||| report_number) % 65536) 0 size 1000] }
      let rc2 := io.release
      let s : OkState := { s with calls := s.calls ++ [UsbCall.libusb_release_interface dev 0] }
      if s.okl_errno > 0 ∧ rc2 < 0 then { s with okl_errno := rc2 } else s
    else s
  if s.okl_errno > 0 then (1, s)
  else (0, { s with ok_errno := OkErrno.OK_EUSBERR })

/-- Function `_okusb_read`: claim interface 0, GET_REPORT control transfer, release.
Returns the C return value and the new state. -/
def _okusb_read (s : OkState) (dev : Handle) (report_type report_number size : Nat)
    (io : XferReplies) : Int × OkState :=
  let s : OkState := { s with
      okl_errno := io.claim,
      calls := s.calls ++ [UsbCall.libusb_claim_interface dev 0] }
  let s :=
    if s.okl_errno = 0 then
      let s : OkState := { s with
        okl_errno := io.transfer,
        calls := s.calls ++ [UsbCall.libusb_control_transfer dev
          (LIBUSB_REQUEST_TYPE_CLASS ||| LIBUSB_RECIPIENT_INTERFACE ||| LIBUSB_ENDPOINT_IN)
          HID_GET_REPORT ((report_type <<< 8 ||| report_number) % 65536) 0 size 1000] }
      let rc2 := io.release
      let s : OkState := { s with calls := s.calls ++ [UsbCall.libusb_release_interface dev 0] }
      if s.okl_errno > 0 ∧ rc2 < 0 then { s with okl_errno := rc2 } else s
    else s
  if s.okl_errno > 0 then (s.okl_errno, s)
  else if s.okl_errno = 0 then (0, { s with ok_errno := OkErrno.OK_ENODATA })
  else (0, { s with ok_errno := OkErrno.OK_EUSBERR })

/-! ## Session lifecycle -/

/-- Function `_okusb_start`: `rc` is what `libusb_init` returns and `ctx` the context
it stores on success. -/
def _okusb_start (s : OkState) (rc : Int) (ctx : Nat) : Int × OkState :=
  let s : OkState := { s with
      okl_errno := rc,
      usb_ctx := if rc = 0 then some ctx else s.usb_ctx,
                    calls := s.calls ++ [UsbCall.libusb_init] }
  if s.okl_errno ≠ 0 then (0, { s with ok_errno := OkErrno.OK_EUSBERR })
  else (1, { s with libusb_inited := 1 })

/-- Function `_okusb_stop`. -/
def _okusb_stop (s : OkState) : Int × OkState :=
  if s.libusb_inited = 1 then
    (1, { s with calls := s.calls ++ [UsbCall.libusb_exit],
                 usb_ctx := none, libusb_inited := 0 })
  else (0, { s with ok_errno := OkErrno.OK_EUSBERR })

/-! ## Device discovery and open -/

/-- The inner `for (j = 0; j < pids_len; j++)` loop of `_okusb_open_device`
for one device `d`, over the remaining product ids.  Carries `found` and
`dev`; the `break` ends the loop as soon as `d` is selected. -/
def scanProductIds (d : UsbDevice) (index : Int) :
    List Int → Int → Option UsbDevice → Int × Option UsbDevice
  | [], found, dev => (found, dev)
  | p :: ps, found, dev =>
    if (d.idProduct : Int) = p then
      if (found + 1) - 1 = index then (found + 1, some d)
      else scanProductIds d index ps (found + 1) dev
    else scanProductIds d index ps found dev

/-- The variables live across the outer device loop, and whether the loop was
left through `goto done`. -/
structure Scan where
  s : OkState
  found : Int
  dev : Option UsbDevice
  aborted : Bool

/-- The outer `for (i = 0; i < cnt; i++)` loop of `_okusb_open_device` over
the remaining enumerated devices. -/
def scanDevices (vendor_id : Int) (product_ids : List Int) (index : Int) :
    List UsbDevice → OkState → Int → Option UsbDevice → Scan
  | [], s, found, dev => { s := s, found := found, dev := dev, aborted := false }
  | d :: ds, s, found, dev =>
    let s : OkState := { s with
      okl_errno := d.descRc,
      calls := s.calls ++ [UsbCall.libusb_get_device_descriptor d] }
    if s.okl_errno ≠ 0 then { s := s, found := found, dev := dev, aborted := true }
    else if (d.idVendor : Int) = vendor_id then
      let r := scanProductIds d index product_ids found dev
      scanDevices vendor_id product_ids index ds s r.1 r.2
    else scanDevices vendor_id product_ids index ds s found dev

/-- The `if (dev) { ... }` block of `_okusb_open_device` up to the label
`done`: returns the value of `h` and the state at `done`.  `libusb_open`
stores a handle only when it returns 0. -/
def openSequence (s : OkState) (dev : UsbDevice) (env : OpenReplies) :
    Option Handle × OkState :=
  let desired_cfg : Int := 1
  let s : OkState := { s with
      okl_errno := env.open_rc,
      calls := s.calls ++ [UsbCall.libusb_open dev] }
  if s.okl_errno ≠ 0 then (none, s)
  else
    let h : Handle := { dev := dev }
    let s : OkState := { s with
      okl_errno := env.kernel_driver_active,
      calls := s.calls ++ [UsbCall.libusb_kernel_driver_active h 0] }
    let afterDriver : Bool × OkState :=
      if s.okl_errno = 1 then
        let s : OkState := { s with
      okl_errno := env.detach_kernel_driver,
      calls := s.calls ++ [UsbCall.libusb_detach_kernel_driver h 0] }
        if s.okl_errno ≠ 0 then (true, s) else (false, s)
      else if s.okl_errno ≠ 0 then (true, s)
      else (false, s)
    if afterDriver.1 then (some h, afterDriver.2)
    else
      let s : OkState := afterDriver.2
      let s : OkState := { s with
      okl_errno := env.get_configuration,
      calls := s.calls ++ [UsbCall.libusb_get_configuration h] }
      if s.okl_errno ≠ 0 then (some h, s)
      else if desired_cfg ≠ env.current_cfg then
        let s : OkState := { s with
      okl_errno := env.set_configuration,
      calls := s.calls ++ [UsbCall.libusb_set_configuration h desired_cfg] }
        (some h, s)
      else (some h, s)

/-- Function `_okusb_open_device`.  `list` is the device list a successful
`libusb_get_device_list` returns (`cnt` is its length; a negative `cnt` runs
the loop zero times, like the empty list).  Returns `h` and the new state. -/
def _okusb_open_device (s : OkState) (list : List UsbDevice) (vendor_id : Int)
    (product_ids : List Int) (index : Int) (env : OpenReplies) :
    Option Handle × OkState :=
  let s : OkState := { s with calls := s.calls ++ [UsbCall.libusb_get_device_list] }
  let sc := scanDevices vendor_id product_ids index list s 0 none
  let atDone : Option Handle × OkErrno × OkState :=
    if sc.aborted then (none, OkErrno.OK_ENOKEY, sc.s)
    else
      match sc.dev with
      | none => (none, OkErrno.OK_ENOKEY, sc.s)
      | some dev =>
        let r := openSequence sc.s dev env
        (r.1, OkErrno.OK_EUSBERR, r.2)
  let h := atDone.1
  let rc := atDone.2.1
  let s : OkState := atDone.2.2
  let s : OkState := { s with calls := s.calls ++ [UsbCall.libusb_free_device_list] }
  if h = none then (h, { s with ok_errno := rc }) else (h, s)

/-- Function `_okusb_close_device`: re-attach the kernel driver, ignoring the result,
and close. -/
def _okusb_close_device (s : OkState) (ok : Handle) : Int × OkState :=
  (1, { s with
      calls := s.calls ++ [UsbCall.libusb_attach_kernel_driver ok 0, UsbCall.libusb_close ok] })

/-- Function `_okusb_get_vid_pid`: `rc` is what `libusb_get_device_descriptor` returns
for the handle's device.  Returns the C return value, the values stored
through `vid` and `pid` (if any), and the new state. -/
def _okusb_get_vid_pid (s : OkState) (ok : Handle) (rc : Int) :
    Int × Option (Int × Int) × OkState :=
  let s : OkState := { s with
      calls := s.calls ++ [UsbCall.libusb_get_device ok, UsbCall.libusb_get_device_descriptor ok.dev] }
  if rc = 0 then (1, some ((ok.dev.idVendor : Int), (ok.dev.idProduct : Int)), s)
  else (0, none, { s with ok_errno := OkErrno.OK_EUSBERR })

/-! ## Error text -/

/-- The `switch` of `_okusb_strerror` as a function of the switched value. -/
def strerrorText (code : Int) : String :=
  if code = LIBUSB_SUCCESS then "Success (no error)"
  else if code = LIBUSB_ERROR_IO then "Input/output error"
  else if code = LIBUSB_ERROR_INVALID_PARAM then "Invalid parameter"
  else if code = LIBUSB_ERROR_ACCESS then "Access denied (insufficient permissions)"
  else if code = LIBUSB_ERROR_NO_DEVICE then "No such device (it may have been disconnected)"
  else if code = LIBUSB_ERROR_NOT_FOUND then "Entity not found"
  else if code = LIBUSB_ERROR_BUSY then "Resource busy"
  else if code = LIBUSB_ERROR_TIMEOUT then "Operation timed out"
  else if code = LIBUSB_ERROR_OVERFLOW then "Overflow"
  else if code = LIBUSB_ERROR_PIPE then "Pipe error"
  else if code = LIBUSB_ERROR_INTERRUPTED then "System call interrupted (perhaps due to signal)"
  else if code = LIBUSB_ERROR_NO_MEM then "Insufficient memory"
  else if code = LIBUSB_ERROR_NOT_SUPPORTED then
    "Operation not supported or unimplemented on this platform"
  else "Other/unknown error"

/-- Function `_okusb_strerror`: switches on the static `okl_errno`. -/
def _okusb_strerror (s : OkState) : String :=
  strerrorText s.okl_errno

/-- The thirteen codes that have a `case` label of their own in
`_okusb_strerror` (`LIBUSB_ERROR_OTHER` shares the `default` label). -/
def namedCodes : List Int :=
  [ LIBUSB_SUCCESS, LIBUSB_ERROR_IO, LIBUSB_ERROR_INVALID_PARAM, LIBUSB_ERROR_ACCESS,
    LIBUSB_ERROR_NO_DEVICE, LIBUSB_ERROR_NOT_FOUND, LIBUSB_ERROR_BUSY, LIBUSB_ERROR_TIMEOUT,
    LIBUSB_ERROR_OVERFLOW, LIBUSB_ERROR_PIPE, LIBUSB_ERROR_INTERRUPTED, LIBUSB_ERROR_NO_MEM,
    LIBUSB_ERROR_NOT_SUPPORTED ]

/-- The devices of an enumeration that match the request: vendor id equal and
product id among the candidates. -/
def matching (vendor_id : Int) (product_ids : List Int) (list : List UsbDevice) :
    List UsbDevice :=
  list.filter (fun d => decide ((d.idVendor : Int) = vendor_id ∧ (d.idProduct : Int) ∈ product_ids))

/-- Whether a logged call is a `libusb_open`. -/
def UsbCall.isOpen : UsbCall → Bool
  | UsbCall.libusb_open _ => true
  | _ => false

/-! ## Fixtures for concrete evaluations -/

/-- A first attached key: vendor 0x1050, product 0x0010. -/
def devA : UsbDevice := { address := 1, descRc := 0, idVendor := 0x1050, idProduct := 0x0010 }

/-- A second attached key: vendor 0x1050, product 0x0030. -/
def devB : UsbDevice := { address := 2, descRc := 0, idVendor := 0x1050, idProduct := 0x0030 }

/-- A second attached key with the same ids as `devA`. -/
def devA2 : UsbDevice := { address := 3, descRc := 0, idVendor := 0x1050, idProduct := 0x0010 }

/-- Every step of the open sequence succeeds and the device is already in
configuration 1. -/
def allOk : OpenReplies :=
  { open_rc := 0, kernel_driver_active := 0, detach_kernel_driver := 0,
    get_configuration := 0, current_cfg := 1, set_configuration := 0 }

/-- The open succeeds and the kernel-driver query fails with
`LIBUSB_ERROR_NO_DEVICE`. -/
def driverQueryFails : OpenReplies :=
  { open_rc := 0, kernel_driver_active := -4, detach_kernel_driver := 0,
    get_configuration := 0, current_cfg := 1, set_configuration := 0 }

/-- The open succeeds, a kernel driver is active, and detaching it fails with
`LIBUSB_ERROR_NOT_FOUND`. -/
def detachFails : OpenReplies :=
  { open_rc := 0, kernel_driver_active := 1, detach_kernel_driver := -5,
    get_configuration := 0, current_cfg := 1, set_configuration := 0 }

/-- The open succeeds, no kernel driver is active, and reading the
configuration fails with `LIBUSB_ERROR_NO_DEVICE`. -/
def getConfigurationFails : OpenReplies :=
  { open_rc := 0, kernel_driver_active := 0, detach_kernel_driver := 0,
    get_configuration := -4, current_cfg := 0, set_configuration := 0 }

/-- The open succeeds, the device is in configuration 0, and setting
configuration 1 fails with `LIBUSB_ERROR_BUSY`. -/
def setConfigurationFails : OpenReplies :=
  { open_rc := 0, kernel_driver_active := 0, detach_kernel_driver := 0,
    get_configuration := 0, current_cfg := 0, set_configuration := -6 }

/-! ## Report I/O: error precedence and return values -/

/-- C5. In both `_okusb_read` and `_okusb_write`, when the claim succeeds, the
control transfer fails with a negative code `t` and the release fails with a
negative code `r`, the recorded `okl_errno` is `t`, the call returns 0 and
`ok_errno` is `OK_EUSBERR`. -/
theorem transfer_error_preserved (s : OkState) (dev : Handle) (rt rn size : Nat)
    (t r : Int) (ht : t < 0) (hr : r < 0) :
    (_okusb_write s dev rt rn size ⟨0, t, r⟩).2.okl_errno = t ∧
    (_okusb_write s dev rt rn size ⟨0, t, r⟩).1 = 0 ∧
    (_okusb_write s dev rt rn size ⟨0, t, r⟩).2.ok_errno = OkErrno.OK_EUSBERR ∧
    (_okusb_read s dev rt rn size ⟨0, t, r⟩).2.okl_errno = t ∧
    (_okusb_read s dev rt rn size ⟨0, t, r⟩).1 = 0 ∧
    (_okusb_read s dev rt rn size ⟨0, t, r⟩).2.ok_errno = OkErrno.OK_EUSBERR := by
  have h1 : ¬ (t > 0) := by omega
  have h2 : ¬ (t = 0) := by omega
  have _ := hr
  simp [_okusb_write, _okusb_read, h1, h2]

/-- C5 at a concrete transaction: transfer fails with `LIBUSB_ERROR_TIMEOUT`,
release with `LIBUSB_ERROR_NO_DEVICE`. -/
theorem transfer_error_preserved_witness :
    (_okusb_write OkState.initial ⟨devA⟩ 3 0 8 ⟨0, -7, -4⟩).2.okl_errno = -7 ∧
    (_okusb_write OkState.initial ⟨devA⟩ 3 0 8 ⟨0, -7, -4⟩).1 = 0 ∧
    (_okusb_write OkState.initial ⟨devA⟩ 3 0 8 ⟨0, -7, -4⟩).2.ok_errno = OkErrno.OK_EUSBERR ∧
    (_okusb_read OkState.initial ⟨devA⟩ 3 0 8 ⟨0, -7, -4⟩).2.okl_errno = -7 ∧
    (_okusb_read OkState.initial ⟨devA⟩ 3 0 8 ⟨0, -7, -4⟩).1 = 0 ∧
    (_okusb_read OkState.initial ⟨devA⟩ 3 0 8 ⟨0, -7, -4⟩).2.ok_errno = OkErrno.OK_EUSBERR :=
  transfer_error_preserved OkState.initial ⟨devA⟩ 3 0 8 (-7) (-4) (by decide) (by decide)

/-- C6, as stated, fails for a zero-length transfer: with claim 0, transfer 0
and release `LIBUSB_ERROR_NO_DEVICE`, both operations leave `okl_errno` at 0
instead of the release's code. -/
theorem release_error_lost_on_zero_transfer :
    (0 : Int) ≤ 0 ∧ (-4 : Int) < 0 ∧
    (_okusb_write OkState.initial ⟨devA⟩ 3 0 8 ⟨0, 0, -4⟩).2.okl_errno ≠ -4 ∧
    (_okusb_read OkState.initial ⟨devA⟩ 3 0 8 ⟨0, 0, -4⟩).2.okl_errno ≠ -4 := by
  decide

/-- C6 (amended). In both `_okusb_read` and `_okusb_write`, when the claim
succeeds, the control transfer returns a positive byte count `t` and the
release fails with a negative code `r`, the recorded `okl_errno` is `r`. -/
theorem release_error_surfaced (s : OkState) (dev : Handle) (rt rn size : Nat)
    (t r : Int) (ht : 0 < t) (hr : r < 0) :
    (_okusb_write s dev rt rn size ⟨0, t, r⟩).2.okl_errno = r ∧
    (_okusb_read s dev rt rn size ⟨0, t, r⟩).2.okl_errno = r := by
  have h1 : ¬ (r > 0) := by omega
  have h2 : ¬ (r = 0) := by omega
  simp [_okusb_write, _okusb_read, ht, hr, h1, h2]

/-- C6 (amended) at a concrete transaction: 8 bytes transferred, release
fails with `LIBUSB_ERROR_NO_DEVICE`. -/
theorem release_error_surfaced_witness :
    (_okusb_write OkState.initial ⟨devA⟩ 3 0 8 ⟨0, 8, -4⟩).2.okl_errno = -4 ∧
    (_okusb_read OkState.initial ⟨devA⟩ 3 0 8 ⟨0, 8, -4⟩).2.okl_errno = -4 :=
  release_error_surfaced OkState.initial ⟨devA⟩ 3 0 8 8 (-4) (by decide) (by decide)

/-- C4, as stated, fails when the release fails: claim 0, transfer 5 bytes,
release `LIBUSB_ERROR_NO_DEVICE` makes `_okusb_read` return 0, not 5. -/
theorem read_positive_transfer_not_returned :
    (0 : Int) < 5 ∧ (_okusb_read OkState.initial ⟨devA⟩ 3 0 8 ⟨0, 5, -4⟩).1 ≠ 5 := by
  decide

/-- C4 (amended). In `_okusb_read` with a successful claim: a transfer of 0
bytes returns 0 with `ok_errno = OK_ENODATA` (which is not `OK_EUSBERR`),
whatever the release returns; a transfer of `n > 0` bytes returns exactly `n`
when the release does not fail (`r ≥ 0`), and returns 0 with
`ok_errno = OK_EUSBERR` when the release fails (`r < 0`). -/
theorem read_result (s : OkState) (dev : Handle) (rt rn size : Nat) (n r : Int) :
    ((_okusb_read s dev rt rn size ⟨0, 0, r⟩).1 = 0 ∧
      (_okusb_read s dev rt rn size ⟨0, 0, r⟩).2.ok_errno = OkErrno.OK_ENODATA ∧
      (_okusb_read s dev rt rn size ⟨0, 0, r⟩).2.ok_errno ≠ OkErrno.OK_EUSBERR) ∧
    (0 < n → 0 ≤ r → (_okusb_read s dev rt rn size ⟨0, n, r⟩).1 = n) ∧
    (0 < n → r < 0 → (_okusb_read s dev rt rn size ⟨0, n, r⟩).1 = 0 ∧
      (_okusb_read s dev rt rn size ⟨0, n, r⟩).2.ok_errno = OkErrno.OK_EUSBERR) := by
  refine ⟨?_, ?_, ?_⟩
  · simp [_okusb_read]
  · intro hn hr
    have h1 : ¬ (r < 0) := by omega
    simp [_okusb_read, hn, h1]
  · intro hn hr
    have h1 : ¬ (r > 0) := by omega
    have h2 : ¬ (r = 0) := by omega
    simp [_okusb_read, hn, hr, h1, h2]

/-- C4 (amended) at concrete transactions: an empty report, a 5-byte report
with a clean release, and a 5-byte report whose release fails. -/
theorem read_result_witness :
    (_okusb_read OkState.initial ⟨devA⟩ 3 0 8 ⟨0, 0, 0⟩).1 = 0 ∧
    (_okusb_read OkState.initial ⟨devA⟩ 3 0 8 ⟨0, 0, 0⟩).2.ok_errno = OkErrno.OK_ENODATA ∧
    (_okusb_read OkState.initial ⟨devA⟩ 3 0 8 ⟨0, 5, 0⟩).1 = 5 ∧
    (_okusb_read OkState.initial ⟨devA⟩ 3 0 8 ⟨0, 5, -4⟩).1 = 0 ∧
    (_okusb_read OkState.initial ⟨devA⟩ 3 0 8 ⟨0, 5, -4⟩).2.ok_errno = OkErrno.OK_EUSBERR :=
  ⟨(read_result OkState.initial ⟨devA⟩ 3 0 8 5 0).1.1,
   (read_result OkState.initial ⟨devA⟩ 3 0 8 5 0).1.2.1,
   (read_result OkState.initial ⟨devA⟩ 3 0 8 5 0).2.1 (by decide) (by decide),
   (read_result OkState.initial ⟨devA⟩ 3 0 8 5 (-4)).2.2 (by decide) (by decide)⟩

/-- C7, as stated, fails for a zero-length transfer: claim, transfer and
release all succeed (0, 0 bytes, 0) and `_okusb_write` returns 0 with
`ok_errno = OK_EUSBERR`. -/
theorem write_zero_transfer_reports_failure :
    (0 : Int) ≤ 0 ∧
    (_okusb_write OkState.initial ⟨devA⟩ 3 0 8 ⟨0, 0, 0⟩).1 = 0 ∧
    (_okusb_write OkState.initial ⟨devA⟩ 3 0 8 ⟨0, 0, 0⟩).2.ok_errno = OkErrno.OK_EUSBERR := by
  decide

/-- C7 (amended). For every reply `c ≤ 0` of `libusb_claim_interface` (0 or
a negative error, as libusb returns), `_okusb_write` returns 1 exactly when
the claim succeeded (`c = 0`), the control transfer returned a positive byte
count (`t > 0`) and the release did not fail (`r ≥ 0`); in every other case
it returns 0 and sets `ok_errno` to `OK_EUSBERR`. -/
theorem write_result (s : OkState) (dev : Handle) (rt rn size : Nat) (c t r : Int)
    (hc : c ≤ 0) :
    ((_okusb_write s dev rt rn size ⟨c, t, r⟩).1 ≠ 0 ↔ (c = 0 ∧ 0 < t ∧ 0 ≤ r)) ∧
    ((c = 0 ∧ 0 < t ∧ 0 ≤ r) → (_okusb_write s dev rt rn size ⟨c, t, r⟩).1 = 1) ∧
    (¬ (c = 0 ∧ 0 < t ∧ 0 ≤ r) →
      (_okusb_write s dev rt rn size ⟨c, t, r⟩).1 = 0 ∧
      (_okusb_write s dev rt rn size ⟨c, t, r⟩).2.ok_errno = OkErrno.OK_EUSBERR) := by
  by_cases h0 : c = 0
  · subst h0
    by_cases ht : 0 < t
    · by_cases hr : r < 0
      · have h1 : ¬ (0 < r) := by omega
        have h2 : ¬ (0 ≤ r) := by omega
        simp [_okusb_write, ht, hr, h1, h2]
      · have h2 : 0 ≤ r := by omega
        simp [_okusb_write, ht, hr, h2]
    · simp [_okusb_write, ht]
  · have h1 : ¬ (0 < c) := by omega
    simp [_okusb_write, h0, h1]

/-- C7 (amended) at a concrete transaction: an 8-byte report written and
released cleanly. -/
theorem write_result_witness :
    (_okusb_write OkState.initial ⟨devA⟩ 3 0 8 ⟨0, 8, 0⟩).1 = 1 :=
  (write_result OkState.initial ⟨devA⟩ 3 0 8 0 8 0 (by decide)).2.1 (by decide)

/-- C10. When `libusb_claim_interface` fails with a negative code `c`,
`_okusb_write` issues exactly one further libusb call, the claim itself (so no
control transfer and no release), returns 0, sets `ok_errno` to `OK_EUSBERR`
and leaves `okl_errno` at `c`. -/
theorem write_claim_failure (s : OkState) (dev : Handle) (rt rn size : Nat)
    (c t r : Int) (hc : c < 0) :
    (_okusb_write s dev rt rn size ⟨c, t, r⟩).2.calls =
      s.calls ++ [UsbCall.libusb_claim_interface dev 0] ∧
    (_okusb_write s dev rt rn size ⟨c, t, r⟩).1 = 0 ∧
    (_okusb_write s dev rt rn size ⟨c, t, r⟩).2.ok_errno = OkErrno.OK_EUSBERR ∧
    (_okusb_write s dev rt rn size ⟨c, t, r⟩).2.okl_errno = c := by
  have h0 : ¬ (c = 0) := by omega
  have h1 : ¬ (0 < c) := by omega
  simp [_okusb_write, h0, h1]

/-- C10 at a concrete transaction: the claim fails with `LIBUSB_ERROR_BUSY`
on a fresh state, and the call log holds the claim alone. -/
theorem write_claim_failure_witness :
    (_okusb_write OkState.initial ⟨devA⟩ 3 0 8 ⟨-6, 8, 0⟩).2.calls =
      OkState.initial.calls ++ [UsbCall.libusb_claim_interface ⟨devA⟩ 0] ∧
    (_okusb_write OkState.initial ⟨devA⟩ 3 0 8 ⟨-6, 8, 0⟩).1 = 0 ∧
    (_okusb_write OkState.initial ⟨devA⟩ 3 0 8 ⟨-6, 8, 0⟩).2.ok_errno = OkErrno.OK_EUSBERR ∧
    (_okusb_write OkState.initial ⟨devA⟩ 3 0 8 ⟨-6, 8, 0⟩).2.okl_errno = -6 :=
  write_claim_failure OkState.initial ⟨devA⟩ 3 0 8 (-6) 8 0 (by decide)

/-! ## Device discovery: the scanning loops -/

/-- The inner loop changes nothing when the device's product id is not a
candidate. -/
theorem scanProductIds_of_not_mem (d : UsbDevice) (index : Int) (ps : List Int)
    (found : Int) (dev : Option UsbDevice) (h : (d.idProduct : Int) ∉ ps) :
    scanProductIds d index ps found dev = (found, dev) := by
  induction ps with
  | nil => rfl
  | cons p ps ih =>
    have hp : ¬ ((d.idProduct : Int) = p) := fun e => h (by simp [e])
    have hps : (d.idProduct : Int) ∉ ps := fun e => h (List.mem_cons_of_mem _ e)
    simp [scanProductIds, hp, ih hps]

/-- On a duplicate-free candidate list, a device whose product id is a
candidate is counted once, and it is selected exactly when the count before
it equals `index`. -/
theorem scanProductIds_of_mem (d : UsbDevice) (index : Int) (ps : List Int)
    (hnd : ps.Nodup) (found : Int) (dev : Option UsbDevice)
    (h : (d.idProduct : Int) ∈ ps) :
    scanProductIds d index ps found dev =
      (found + 1, if found = index then some d else dev) := by
  induction ps with
  | nil => simp at h
  | cons p ps ih =>
    rw [List.nodup_cons] at hnd
    by_cases hp : (d.idProduct : Int) = p
    · have hps : (d.idProduct : Int) ∉ ps := hp ▸ hnd.1
      by_cases hf : found = index
      · simp [scanProductIds, hp, hf]
      · have hrest := scanProductIds_of_not_mem d index ps (found + 1) dev hps
        simp [scanProductIds, hp, hf]
        exact hrest
    · have hps : (d.idProduct : Int) ∈ ps := by
        rcases List.mem_cons.mp h with e | e
        · exact absurd e hp
        · exact e
      simp [scanProductIds, hp]
      exact ih hnd.2 hps

/-- Unfolding `matching` over a head device. -/
theorem matching_cons (vendor_id : Int) (product_ids : List Int) (d : UsbDevice)
    (ds : List UsbDevice) :
    matching vendor_id product_ids (d :: ds) =
      if (d.idVendor : Int) = vendor_id ∧ (d.idProduct : Int) ∈ product_ids then
        d :: matching vendor_id product_ids ds
      else matching vendor_id product_ids ds := by
  by_cases h : (d.idVendor : Int) = vendor_id ∧ (d.idProduct : Int) ∈ product_ids
  · simp [matching, List.filter_cons, h]
  · simp only [matching, List.filter_cons, h, decide_False, if_false]
    simp

/-- One iteration of the outer loop for a device whose descriptor read
succeeds, on a duplicate-free candidate list. -/
theorem scanDevices_cons_ok (vendor_id : Int) (product_ids : List Int) (index : Int)
    (hnd : product_ids.Nodup) (d : UsbDevice) (ds : List UsbDevice) (s : OkState)
    (found : Int) (dev : Option UsbDevice) (hd : d.descRc = 0) :
    scanDevices vendor_id product_ids index (d :: ds) s found dev =
      scanDevices vendor_id product_ids index ds
        { s with okl_errno := 0,
                 calls := s.calls ++ [UsbCall.libusb_get_device_descriptor d] }
        (if (d.idVendor : Int) = vendor_id ∧ (d.idProduct : Int) ∈ product_ids
          then found + 1 else found)
        (if ((d.idVendor : Int) = vendor_id ∧ (d.idProduct : Int) ∈ product_ids)
            ∧ found = index then some d else dev) := by
  by_cases hv : (d.idVendor : Int) = vendor_id
  · by_cases hp : (d.idProduct : Int) ∈ product_ids
    · simp [scanDevices, hd, hv, hp, scanProductIds_of_mem d index product_ids hnd found dev hp]
    · simp [scanDevices, hd, hv, hp, scanProductIds_of_not_mem d index product_ids found dev hp]
  · simp [scanDevices, hd, hv]

/-- The outer loop leaves `dev` alone when the index is already behind the
counter, or is not reached by the matches still to come.  Holds whether or
not a descriptor read fails on the way. -/
theorem scanDevices_dev_unchanged (vendor_id : Int) (product_ids : List Int) (index : Int)
    (hnd : product_ids.Nodup) (list : List UsbDevice) :
    ∀ (s : OkState) (found : Int) (dev : Option UsbDevice),
      (index < found ∨ found + ((matching vendor_id product_ids list).length : Int) ≤ index) →
      (scanDevices vendor_id product_ids index list s found dev).dev = dev := by
  induction list with
  | nil => intro s found dev _; rfl
  | cons d ds ih =>
    intro s found dev h
    by_cases hd : d.descRc = 0
    · rw [scanDevices_cons_ok vendor_id product_ids index hnd d ds s found dev hd]
      rw [matching_cons] at h
      by_cases hm : (d.idVendor : Int) = vendor_id ∧ (d.idProduct : Int) ∈ product_ids
      · rw [if_pos hm, List.length_cons, Nat.cast_add, Nat.cast_one] at h
        have hne : ¬ (found = index) := by omega
        rw [if_pos hm, if_neg (fun c => hne c.2)]
        exact ih _ _ _ (by omega)
      · rw [if_neg hm] at h
        rw [if_neg hm, if_neg (fun c => hm c.1)]
        exact ih _ _ _ h
    · simp [scanDevices, hd]

/-- When every descriptor read succeeds and the index lies `k` matches ahead
of the counter, the outer loop runs to the end and selects the `k`-th of the
remaining matching devices. -/
theorem scanDevices_selects (vendor_id : Int) (product_ids : List Int) (index : Int)
    (hnd : product_ids.Nodup) (list : List UsbDevice) :
    ∀ (s : OkState) (found : Int) (dev : Option UsbDevice) (k : Nat),
      (∀ d ∈ list, d.descRc = 0) → index = found + (k : Int) →
      k < (matching vendor_id product_ids list).length →
      (scanDevices vendor_id product_ids index list s found dev).dev =
        (matching vendor_id product_ids list)[k]? := by
  induction list with
  | nil => intro s found dev k _ _ hk; simp [matching] at hk
  | cons d ds ih =>
    intro s found dev k hdesc hidx hk
    have hd : d.descRc = 0 := hdesc d (List.mem_cons_self _ _)
    have hds : ∀ x ∈ ds, x.descRc = 0 := fun x hx => hdesc x (List.mem_cons_of_mem _ hx)
    rw [scanDevices_cons_ok vendor_id product_ids index hnd d ds s found dev hd]
    rw [matching_cons] at hk ⊢
    by_cases hm : (d.idVendor : Int) = vendor_id ∧ (d.idProduct : Int) ∈ product_ids
    · rw [if_pos hm, List.length_cons] at hk
      rw [if_pos hm, if_pos hm]
      cases k with
      | zero =>
        have hf : found = index := by omega
        rw [if_pos ⟨hm, hf⟩, List.getElem?_cons_zero]
        exact scanDevices_dev_unchanged vendor_id product_ids index hnd ds _ _ _
          (Or.inl (by omega))
      | succ k =>
        have hf : ¬ (found = index) := by omega
        rw [if_neg (fun c => hf c.2), List.getElem?_cons_succ]
        exact ih _ _ _ k hds (by omega) (by omega)
    · rw [if_neg hm] at hk
      rw [if_neg hm, if_neg hm, if_neg (fun c => hm c.1)]
      exact ih _ _ _ k hds hidx hk

/-- When every descriptor read succeeds the outer loop is never left through
`goto done`, it logs one descriptor read per device, and it leaves
`okl_errno` at 0 once a device has been read. -/
theorem scanDevices_log (vendor_id : Int) (product_ids : List Int) (index : Int)
    (hnd : product_ids.Nodup) (list : List UsbDevice) :
    ∀ (s : OkState) (found : Int) (dev : Option UsbDevice),
      (∀ d ∈ list, d.descRc = 0) →
      (scanDevices vendor_id product_ids index list s found dev).aborted = false ∧
      (scanDevices vendor_id product_ids index list s found dev).s.calls =
        s.calls ++ list.map UsbCall.libusb_get_device_descriptor := by
  induction list with
  | nil => intro s found dev _; simp [scanDevices]
  | cons d ds ih =>
    intro s found dev hdesc
    have hd : d.descRc = 0 := hdesc d (List.mem_cons_self _ _)
    have hds : ∀ x ∈ ds, x.descRc = 0 := fun x hx => hdesc x (List.mem_cons_of_mem _ hx)
    rw [scanDevices_cons_ok vendor_id product_ids index hnd d ds s found dev hd]
    obtain ⟨h1, h2⟩ := ih
      { s with
        okl_errno := 0
        calls := s.calls ++ [UsbCall.libusb_get_device_descriptor d] } _ _ hds
    exact ⟨h1, by rw [h2]; simp⟩

/-- The open sequence logs exactly one `libusb_open`, on the device it was
given, and the handle it leaves in `h` (if any) is that device's. -/
theorem openSequence_log (s : OkState) (dev : UsbDevice) (env : OpenReplies) :
    (openSequence s dev env).2.calls.filter UsbCall.isOpen =
      s.calls.filter UsbCall.isOpen ++ [UsbCall.libusb_open dev] ∧
    ((openSequence s dev env).1 = none ∨ (openSequence s dev env).1 = some ⟨dev⟩) := by
  by_cases h1 : env.open_rc = 0
  · by_cases h2 : env.kernel_driver_active = 1 <;>
    by_cases h3 : env.detach_kernel_driver = 0 <;>
    by_cases h4 : env.kernel_driver_active = 0 <;>
    by_cases h5 : env.get_configuration = 0 <;>
    by_cases h6 : env.current_cfg = 1 <;>
    simp [openSequence, h1, h2, h3, h4, h5, h6, @eq_comm Int 1 env.current_cfg,
      UsbCall.isOpen, List.filter_cons]
  · simp [openSequence, h1, UsbCall.isOpen, List.filter_cons]

/-! ## Device discovery: index semantics -/

/-- C2, as stated, fails when the candidate list repeats a product id: with
candidates `[0x0010, 0x0010]`, index 1 and a single matching device attached
(so the index is not below the number of matching devices), the device is
counted twice, selected and opened, and a handle is returned. -/
theorem open_index_reached_by_repeated_id :
    ((matching 0x1050 [0x0010, 0x0010] [devA]).length : Int) ≤ 1 ∧
    (_okusb_open_device OkState.initial [devA] 0x1050 [0x0010, 0x0010] 1 allOk).1
      = some ⟨devA⟩ := by
  decide

/-- C2 (amended). For every vendor id, every candidate product-id list
without repeated entries, every index and every list of attached devices, if
the index is at least the number of attached devices whose vendor id equals
the given one and whose product id is a candidate, `_okusb_open_device`
returns no handle and sets `ok_errno` to `OK_ENOKEY`. -/
theorem open_no_key (s : OkState) (list : List UsbDevice) (vendor_id : Int)
    (product_ids : List Int) (index : Int) (env : OpenReplies)
    (hnd : product_ids.Nodup)
    (h : ((matching vendor_id product_ids list).length : Int) ≤ index) :
    (_okusb_open_device s list vendor_id product_ids index env).1 = none ∧
    (_okusb_open_device s list vendor_id product_ids index env).2.ok_errno
      = OkErrno.OK_ENOKEY := by
  have hdev := scanDevices_dev_unchanged vendor_id product_ids index hnd list
    { s with calls := s.calls ++ [UsbCall.libusb_get_device_list] } 0 none
    (Or.inr (by omega))
  unfold _okusb_open_device
  simp only [hdev]
  split_ifs <;> simp_all

/-- C2 (amended) at a concrete call: one key attached, candidates
`[0x0010, 0x0030]`, index 1. -/
theorem open_no_key_witness :
    (_okusb_open_device OkState.initial [devA] 0x1050 [0x0010, 0x0030] 1 allOk).1 = none ∧
    (_okusb_open_device OkState.initial [devA] 0x1050 [0x0010, 0x0030] 1 allOk).2.ok_errno
      = OkErrno.OK_ENOKEY :=
  open_no_key OkState.initial [devA] 0x1050 [0x0010, 0x0030] 1 allOk (by decide) (by decide)

/-- C3, as stated, fails when the candidate list repeats a product id: with
candidates `[0x0010, 0x0010]`, index 1 and two matching devices whose
descriptor reads succeed, the second matching device is `devA2`, yet the
device passed to `libusb_open` (and whose handle is returned) is the first,
`devA`. -/
theorem open_selects_wrong_device_on_repeated_id :
    (0 : Int) ≤ 1 ∧ (∀ d ∈ [devA, devA2], d.descRc = 0) ∧
    1 + 1 ≤ (matching 0x1050 [0x0010, 0x0010] [devA, devA2]).length ∧
    (matching 0x1050 [0x0010, 0x0010] [devA, devA2])[1]? = some devA2 ∧
    (_okusb_open_device OkState.initial [devA, devA2] 0x1050 [0x0010, 0x0010] 1
        allOk).2.calls.filter UsbCall.isOpen = [UsbCall.libusb_open devA] ∧
    (_okusb_open_device OkState.initial [devA, devA2] 0x1050 [0x0010, 0x0010] 1 allOk).1
      = some ⟨devA⟩ ∧
    devA ≠ devA2 := by
  decide

/-- C3 (amended). For every vendor id, every candidate product-id list
without repeated entries, every index `≥ 0` and every enumerated device list
in which every descriptor read succeeds and at least `index + 1` devices
match, the device the scan selects is the `(index+1)`-th matching device in
enumeration order (so no later match replaces it), the call issues exactly
one `libusb_open`, on that device, and a returned handle is that device's. -/
theorem open_selects_indexed_match (s : OkState) (list : List UsbDevice) (vendor_id : Int)
    (product_ids : List Int) (index : Nat) (env : OpenReplies)
    (hnd : product_ids.Nodup) (hdesc : ∀ d ∈ list, d.descRc = 0)
    (hm : index + 1 ≤ (matching vendor_id product_ids list).length) :
    ∃ d, (matching vendor_id product_ids list)[index]? = some d ∧
      (∀ s0 : OkState,
        (scanDevices vendor_id product_ids (index : Int) list s0 0 none).dev = some d) ∧
      (_okusb_open_device s list vendor_id product_ids (index : Int) env).2.calls.filter
          UsbCall.isOpen = s.calls.filter UsbCall.isOpen ++ [UsbCall.libusb_open d] ∧
      ((_okusb_open_device s list vendor_id product_ids (index : Int) env).1 = none ∨
        (_okusb_open_device s list vendor_id product_ids (index : Int) env).1 = some ⟨d⟩) := by
  have hlt : index < (matching vendor_id product_ids list).length := by omega
  have hsel : ∀ s0 : OkState,
      (scanDevices vendor_id product_ids (index : Int) list s0 0 none).dev =
        (matching vendor_id product_ids list)[index]? := fun s0 =>
    scanDevices_selects vendor_id product_ids (index : Int) hnd list s0 0 none index hdesc
      (by omega) hlt
  refine ⟨(matching vendor_id product_ids list)[index], List.getElem?_eq_getElem hlt, ?_, ?_⟩
  · intro s0
    rw [hsel s0, List.getElem?_eq_getElem hlt]
  · have hs := hsel { s with calls := s.calls ++ [UsbCall.libusb_get_device_list] }
    rw [List.getElem?_eq_getElem hlt] at hs
    obtain ⟨hab, hcalls⟩ := scanDevices_log vendor_id product_ids (index : Int) hnd list
      { s with calls := s.calls ++ [UsbCall.libusb_get_device_list] } 0 none hdesc
    obtain ⟨hopen, hh⟩ := openSequence_log
      (scanDevices vendor_id product_ids (index : Int) list
        { s with calls := s.calls ++ [UsbCall.libusb_get_device_list] } 0 none).s
      ((matching vendor_id product_ids list)[index]) env
    have hnoopen : (list.map UsbCall.libusb_get_device_descriptor).filter UsbCall.isOpen = [] := by
      rw [List.filter_eq_nil_iff]
      intro c hc
      obtain ⟨x, _, rfl⟩ := List.mem_map.mp hc
      simp [UsbCall.isOpen]
    rw [hcalls] at hopen
    simp only [List.filter_append, hnoopen, List.append_nil] at hopen
    have hglist : List.filter UsbCall.isOpen [UsbCall.libusb_get_device_list] = [] := by
      simp [UsbCall.isOpen]
    rw [hglist, List.append_nil] at hopen
    unfold _okusb_open_device
    simp only [hab, hs, Bool.false_eq_true, if_false]
    constructor
    · split_ifs <;> simp [List.filter_append, hopen, UsbCall.isOpen]
    · rcases hh with hh | hh
      · left; simp [hh]
      · right; simp [hh]

/-- C3 at the spec's scenario: vendor 0x1050, candidates `[0x0010, 0x0030]`,
index 0, two matching devices attached; the first enumerated match, `devA`,
is the one opened. -/
theorem open_selects_indexed_match_witness :
    ∃ d, (matching 0x1050 [0x0010, 0x0030] [devA, devB])[0]? = some d ∧
      (∀ s0 : OkState,
        (scanDevices 0x1050 [0x0010, 0x0030] ((0 : Nat) : Int) [devA, devB] s0 0 none).dev
          = some d) ∧
      (_okusb_open_device OkState.initial [devA, devB] 0x1050 [0x0010, 0x0030]
          ((0 : Nat) : Int) allOk).2.calls.filter UsbCall.isOpen =
        OkState.initial.calls.filter UsbCall.isOpen ++ [UsbCall.libusb_open d] ∧
      ((_okusb_open_device OkState.initial [devA, devB] 0x1050 [0x0010, 0x0030]
          ((0 : Nat) : Int) allOk).1 = none ∨
        (_okusb_open_device OkState.initial [devA, devB] 0x1050 [0x0010, 0x0030]
          ((0 : Nat) : Int) allOk).1 = some ⟨d⟩) :=
  open_selects_indexed_match OkState.initial [devA, devB] 0x1050 [0x0010, 0x0030] 0 allOk
    (by decide) (by decide) (by decide)

/-! ## Open sequence failures -/

/-- C1 at failing inputs. One matching key is attached and `libusb_open`
succeeds; then a later step of the open sequence fails (the kernel-driver
query, the detach, get-configuration, or set-configuration).  In each case
`_okusb_open_device` returns the handle it had opened, records the failing
step's code in `okl_errno`, and leaves `ok_errno` as it was instead of
setting `OK_EUSBERR`. -/
theorem open_returns_handle_after_failed_step :
    ((_okusb_open_device OkState.initial [devA] 0x1050 [0x0010] 0 driverQueryFails).1
        = some ⟨devA⟩ ∧
      (_okusb_open_device OkState.initial [devA] 0x1050 [0x0010] 0 driverQueryFails).2.ok_errno
        = OkErrno.OK_SUCCESS ∧
      (_okusb_open_device OkState.initial [devA] 0x1050 [0x0010] 0 driverQueryFails).2.okl_errno
        = -4) ∧
    ((_okusb_open_device OkState.initial [devA] 0x1050 [0x0010] 0 detachFails).1
        = some ⟨devA⟩ ∧
      (_okusb_open_device OkState.initial [devA] 0x1050 [0x0010] 0 detachFails).2.ok_errno
        = OkErrno.OK_SUCCESS ∧
      (_okusb_open_device OkState.initial [devA] 0x1050 [0x0010] 0 detachFails).2.okl_errno
        = -5) ∧
    ((_okusb_open_device OkState.initial [devA] 0x1050 [0x0010] 0 getConfigurationFails).1
        = some ⟨devA⟩ ∧
      (_okusb_open_device OkState.initial [devA] 0x1050 [0x0010] 0
        getConfigurationFails).2.ok_errno = OkErrno.OK_SUCCESS ∧
      (_okusb_open_device OkState.initial [devA] 0x1050 [0x0010] 0
        getConfigurationFails).2.okl_errno = -4) ∧
    ((_okusb_open_device OkState.initial [devA] 0x1050 [0x0010] 0 setConfigurationFails).1
        = some ⟨devA⟩ ∧
      (_okusb_open_device OkState.initial [devA] 0x1050 [0x0010] 0
        setConfigurationFails).2.ok_errno = OkErrno.OK_SUCCESS ∧
      (_okusb_open_device OkState.initial [devA] 0x1050 [0x0010] 0
        setConfigurationFails).2.okl_errno = -6) := by
  decide

/-- The part of the open sequence that does report failure: when
`libusb_open` itself returns a nonzero code `e` for the selected device, no
handle is left in `h` and `okl_errno` is `e`. -/
theorem openSequence_open_failure (s : OkState) (dev : UsbDevice) (env : OpenReplies)
    (h : env.open_rc ≠ 0) :
    (openSequence s dev env).1 = none ∧
    (openSequence s dev env).2.okl_errno = env.open_rc := by
  simp [openSequence, h]

/-- Once `libusb_open` has succeeded the open sequence leaves the opened
handle in `h`, whatever the later steps return. -/
theorem openSequence_handle_of_open_ok (s : OkState) (dev : UsbDevice) (env : OpenReplies)
    (h : env.open_rc = 0) :
    (openSequence s dev env).1 = some ⟨dev⟩ := by
  by_cases h2 : env.kernel_driver_active = 1 <;>
  by_cases h3 : env.detach_kernel_driver = 0 <;>
  by_cases h4 : env.kernel_driver_active = 0 <;>
  by_cases h5 : env.get_configuration = 0 <;>
  by_cases h6 : env.current_cfg = 1 <;>
  simp [openSequence, h, h2, h3, h4, h5, h6, @eq_comm Int 1 env.current_cfg]

/-! ## Low-level error code and error text -/

/-- The operations that do record a failing libusb call: a failing
`libusb_init` in `_okusb_start`, and a failing claim or a failing control
transfer in `_okusb_read` and `_okusb_write`, leave that call's code in
`okl_errno`. -/
theorem failing_call_recorded (s : OkState) (dev : Handle) (rt rn size : Nat)
    (e r : Int) (ctx : Nat) (he : e < 0) :
    (_okusb_start s e ctx).2.okl_errno = e ∧
    (_okusb_write s dev rt rn size ⟨e, 0, r⟩).2.okl_errno = e ∧
    (_okusb_read s dev rt rn size ⟨e, 0, r⟩).2.okl_errno = e ∧
    (_okusb_write s dev rt rn size ⟨0, e, r⟩).2.okl_errno = e ∧
    (_okusb_read s dev rt rn size ⟨0, e, r⟩).2.okl_errno = e := by
  have h0 : ¬ (e = 0) := by omega
  have h1 : ¬ (0 < e) := by omega
  simp [_okusb_start, _okusb_write, _okusb_read, h0, h1]

/-- C8 at a failing input. After a successful `_okusb_start`,
`_okusb_get_vid_pid` on a handle whose descriptor read fails with
`LIBUSB_ERROR_NO_DEVICE` returns 0 and sets `ok_errno` to `OK_EUSBERR`, but
`okl_errno` stays 0 and `_okusb_strerror` answers "Success (no error)"
rather than the text for the failing code. -/
theorem get_vid_pid_error_not_recorded :
    (_okusb_get_vid_pid (_okusb_start OkState.initial 0 1).2 ⟨devA⟩
        LIBUSB_ERROR_NO_DEVICE).1 = 0 ∧
    (_okusb_get_vid_pid (_okusb_start OkState.initial 0 1).2 ⟨devA⟩
        LIBUSB_ERROR_NO_DEVICE).2.2.ok_errno = OkErrno.OK_EUSBERR ∧
    (_okusb_get_vid_pid (_okusb_start OkState.initial 0 1).2 ⟨devA⟩
        LIBUSB_ERROR_NO_DEVICE).2.2.okl_errno = 0 ∧
    _okusb_strerror (_okusb_get_vid_pid (_okusb_start OkState.initial 0 1).2 ⟨devA⟩
        LIBUSB_ERROR_NO_DEVICE).2.2 = "Success (no error)" ∧
    strerrorText LIBUSB_ERROR_NO_DEVICE = "No such device (it may have been disconnected)" := by
  decide

/-- Function `_okusb_get_vid_pid` never writes `okl_errno`, whatever the descriptor
read returns. -/
theorem get_vid_pid_keeps_okl_errno (s : OkState) (ok : Handle) (rc : Int) :
    (_okusb_get_vid_pid s ok rc).2.2.okl_errno = s.okl_errno := by
  unfold _okusb_get_vid_pid
  split_ifs <;> rfl

/-- C9. `_okusb_strerror` is a total function of `okl_errno` alone; the
thirteen codes with a `case` label of their own map to thirteen pairwise
distinct strings, none of them the catch-all; every other code, among them
`LIBUSB_ERROR_OTHER`, maps to "Other/unknown error"; and in the initial
state the result is "Success (no error)". -/
theorem strerror_spec :
    (∀ s : OkState, _okusb_strerror s = strerrorText s.okl_errno) ∧
    (∀ s s' : OkState, s.okl_errno = s'.okl_errno → _okusb_strerror s = _okusb_strerror s') ∧
    namedCodes.map strerrorText =
      ["Success (no error)", "Input/output error", "Invalid parameter",
       "Access denied (insufficient permissions)",
       "No such device (it may have been disconnected)", "Entity not found",
       "Resource busy", "Operation timed out", "Overflow", "Pipe error",
       "System call interrupted (perhaps due to signal)", "Insufficient memory",
       "Operation not supported or unimplemented on this platform"] ∧
    (namedCodes.map strerrorText).length = 13 ∧
    (namedCodes.map strerrorText).Nodup ∧
    (∀ c ∈ namedCodes, strerrorText c ≠ "Other/unknown error") ∧
    (∀ c : Int, c ∉ namedCodes → strerrorText c = "Other/unknown error") ∧
    LIBUSB_ERROR_OTHER ∉ namedCodes ∧
    strerrorText LIBUSB_ERROR_OTHER = "Other/unknown error" ∧
    _okusb_strerror OkState.initial = "Success (no error)" := by
  refine ⟨fun _ => rfl, ?_, by decide, by decide, by decide, by decide, ?_, by decide,
    by decide, by decide⟩
  · intro s s' h
    simp [_okusb_strerror, h]
  · intro c hc
    simp only [namedCodes, List.mem_cons, List.mem_singleton, List.not_mem_nil, or_false,
      not_or] at hc
    obtain ⟨h0, h1, h2, h3, h4, h5, h6, h7, h8, h9, h10, h11, h12⟩ := hc
    simp [strerrorText, h0, h1, h2, h3, h4, h5, h6, h7, h8, h9, h10, h11, h12]

/-- C9 at concrete states: two states that agree on `okl_errno` (here
`LIBUSB_ERROR_TIMEOUT`) and differ elsewhere get the same text, and an
unlisted code gets the catch-all. -/
theorem strerror_spec_witness :
    _okusb_strerror { OkState.initial with okl_errno := -7 } =
      _okusb_strerror { OkState.initial with okl_errno := -7, libusb_inited := 1 } ∧
    strerrorText 42 = "Other/unknown error" :=
  ⟨strerror_spec.2.1 _ _ rfl, strerror_spec.2.2.2.2.2.2.1 42 (by decide)⟩

end OkUsb
